import Mathlib

/-!
Shallow embedding of src/create_powerpoint.py, a straight-line Python script
that builds a fixed five-slide PowerPoint deck with the python-pptx library
and serializes it to one file.

Length units: the script measures every position and size with Inches(x),
and every x used is a multiple of 0.01 inch, so lengths are embedded as
natural numbers of centi-inches (Inches(13.33) becomes 1333, Inches(0.5)
becomes 50). Font sizes Pt(n) and spacing values are natural numbers of
points.
-/

/-- pptx.dml.color.RGBColor: a 24-bit color, one byte per channel. -/
structure RGBColor where
  r : Nat
  g : Nat
  b : Nat
deriving DecidableEq, Repr

/-- pptx.enum.text.PP_ALIGN; the script only ever assigns CENTER, and an
unassigned alignment is modelled as none (inherit). -/
inductive PPAlign where
  | left
  | center
  | right
deriving DecidableEq, Repr

/-- A fill format: the script calls fill.solid() followed by an assignment
to fill.fore_color.rgb for slide backgrounds, and line.fill.background()
to remove the outline. -/
inductive Fill where
  | solid (rgb : RGBColor)
  | background
deriving DecidableEq, Repr

/-- One paragraph of a text frame. A field the script never assigns on a
given paragraph stays none, matching the python-pptx inherit default. -/
structure Paragraph where
  text : String
  fontSize : Option Nat
  fontColor : Option RGBColor
  bold : Option Bool
  alignment : Option PPAlign
  spaceBefore : Option Nat
  fontName : Option String
deriving DecidableEq, Repr

/-- A shape on a slide: the script only ever adds MSO_SHAPE.RECTANGLE
shapes (backgrounds) and text boxes. Positions and sizes in centi-inches. -/
inductive Shape where
  | rectangle (left top width height : Nat) (fill : Fill) (lineFill : Fill)
  | textbox (left top width height : Nat) (paragraphs : List Paragraph)
deriving DecidableEq, Repr

/-- A slide: the index of the slide layout it was added with, and its
shapes in insertion order. -/
structure Slide where
  layoutIndex : Nat
  shapes : List Shape
deriving DecidableEq, Repr

/-- The presentation object: canvas size plus the slides in order. -/
structure Deck where
  slideWidth : Nat
  slideHeight : Nat
  slides : List Slide
deriving DecidableEq, Repr

/-- Assigning a string to text_frame.text in python-pptx replaces the frame
content with one paragraph per line of the string (line feeds become
paragraph breaks); the fresh paragraphs carry no explicit formatting. -/
def text_frame_set_text (s : String) : List Paragraph :=
  (s.splitOn "\n").map fun line => ⟨line, none, none, none, none, none, none⟩

/-- Apply a styling function to paragraphs[0] of a text frame, as the
script does after assigning multi-line text. -/
def style_first (f : Paragraph → Paragraph) : List Paragraph → List Paragraph
  | [] => []
  | p :: ps => f p :: ps

def BLUE : RGBColor := ⟨102, 126, 234⟩

def PURPLE : RGBColor := ⟨118, 75, 162⟩

def GOLD : RGBColor := ⟨255, 215, 0⟩

def GREEN : RGBColor := ⟨144, 238, 144⟩

def WHITE : RGBColor := ⟨255, 255, 255⟩

/-- prs.slide_width = Inches(13.33), in centi-inches. -/
def slide_width : Nat := 1333

/-- prs.slide_height = Inches(7.5), in centi-inches. -/
def slide_height : Nat := 750

def challenges : List String :=
  ["DevOps teams struggle with complex workflow optimization",
   "Manual review processes are time-consuming and error-prone",
   "Different optimization goals require different expertise",
   "No unified system for comprehensive workflow analysis"]

def solutions : List String :=
  ["Decomposition: Complex analysis → specialized agents",
   "Expertise: Each agent focuses on domain knowledge",
   "Scalability: Parallel processing + intelligent caching",
   "Human-in-the-loop: Interactive goal changes"]

/-- The triple-quoted architecture_text literal of the script, line for
line. -/
def architecture_text : String :=
  String.intercalate "\n"
    ["┌─────────────────────────────────────────────────────────────┐",
     "│                    Web Interface Layer ✅                   │",
     "│  ┌─────────────────┐  ┌─────────────────┐  ┌─────────────┐ │",
     "│  │   Input Form    │  │  Results View   │  │ Goal Selector│ │",
     "│  │  (Implemented)  │  │  (Implemented)  │  │ (Implemented)│ │",
     "│  └─────────────────┘  └─────────────────┘  └─────────────┘ │",
     "└─────────────────────────────────────────────────────────────┘",
     "                                │",
     "┌─────────────────────────────────────────────────────────────┐",
     "│                 Agent Orchestration Layer ✅                │",
     "│  ┌─────────────────┐  ┌─────────────────┐  ┌─────────────┐ │",
     "│  │ Analysis Engine │  │  Goal Context   │  │ Result Cache│ │",
     "│  │  (Implemented)  │  │  (Implemented)  │  │ (Implemented)│ │",
     "│  └─────────────────┘  └─────────────────┘  └─────────────┘ │",
     "└─────────────────────────────────────────────────────────────┘",
     "                                │",
     "┌─────────────────────────────────────────────────────────────┐",
     "│                    Agent Processing Layer ✅                │",
     "│  ┌─────────────┐ ┌─────────────┐ ┌─────────────┐ ┌─────────┐│",
     "│  │Parser Agent │ │Risk Analyzer│ │Optimization │ │ Critic  ││",
     "│  │(Implemented)│ │(Implemented)│ │(Implemented)│ │(Impl.)  ││",
     "│  └─────────────┘ └─────────────┘ └─────────────┘ └─────────┘│",
     "└─────────────────────────────────────────────────────────────┘"]

def features : List (String × List String) :=
  [("Specs & Requirements",
    ["Formal requirements.md, design.md, tasks.md",
     "Property-based testing specifications",
     "Incremental development tracking"]),
   ("Agent Orchestration",
    ["4 specialized AI agents",
     "Sequential execution with data flow",
     "Error handling & graceful degradation"]),
   ("Workflow Automation",
    ["Intelligent caching (2.8x performance)",
     "Goal-specific re-analysis",
     "Human-in-the-loop feedback"]),
   ("Development Tools",
    ["TypeScript integration",
     "Jest + property-based testing",
     "Next.js + Mantine UI"])]

def positions : List (Nat × Nat) := [(50, 150), (650, 150), (50, 400), (650, 400)]

def takeaways : List String :=
  ["Agentic Design: Multi-agent systems excel at complex analysis",
   "Kiro Integration: Specs + workflows + testing = robust development",
   "Performance Matters: Intelligent caching transforms UX",
   "Iterative Value: Goal-based re-analysis provides perspectives"]

/-- Slide 1, the title slide: background rectangle, then the title,
subtitle, Kiro and date text boxes, each one centered paragraph. -/
def slide1 : Slide :=
  ⟨6,
   [Shape.rectangle 0 0 slide_width slide_height (Fill.solid BLUE) Fill.background,
    Shape.textbox 100 200 1133 150
      [⟨"Agentic Workflow Reviewer", some 48, some WHITE, some true, some PPAlign.center, none, none⟩],
    Shape.textbox 100 350 1133 100
      [⟨"AI-Powered Multi-Agent Workflow Analysis & Optimization", some 24, some WHITE, none, some PPAlign.center, none, none⟩],
    Shape.textbox 100 500 1133 80
      [⟨"Built with Kiro.dev", some 20, some GOLD, none, some PPAlign.center, none, none⟩],
    Shape.textbox 100 600 1133 50
      [⟨"Kiro Hackathon • January 2026", some 16, some WHITE, none, some PPAlign.center, none, none⟩]]⟩

/-- Slide 2, Problem Statement and Vision: background, title box, then the
challenge box (heading plus one bulleted paragraph per challenges entry)
and the solution box (heading plus one bulleted paragraph per solutions
entry). -/
def slide2 : Slide :=
  ⟨6,
   [Shape.rectangle 0 0 slide_width slide_height (Fill.solid BLUE) Fill.background,
    Shape.textbox 50 50 1233 100
      [⟨"Problem Statement & Vision", some 36, some GOLD, some true, none, none, none⟩],
    Shape.textbox 50 150 600 300
      (⟨"The Challenge", some 24, some GREEN, some true, none, none, none⟩ ::
        challenges.map fun c => ⟨"• " ++ c, some 16, some WHITE, none, none, some 6, none⟩),
    Shape.textbox 650 150 600 300
      (⟨"Why Agents + Kiro?", some 24, some GREEN, some true, none, none, none⟩ ::
        solutions.map fun s => ⟨"• " ++ s, some 16, some WHITE, none, none, some 6, none⟩)]⟩

/-- Slide 3, architecture: background, title box, and the diagram box whose
text is architecture_text (one paragraph per line, only the first styled). -/
def slide3 : Slide :=
  ⟨6,
   [Shape.rectangle 0 0 slide_width slide_height (Fill.solid BLUE) Fill.background,
    Shape.textbox 50 50 1233 100
      [⟨"Multi-Agent System Architecture", some 36, some GOLD, some true, none, none, none⟩],
    Shape.textbox 100 150 1133 550
      (style_first
        (fun p => ⟨p.text, some 11, some WHITE, p.bold, p.alignment, p.spaceBefore, some "Courier New"⟩)
        (text_frame_set_text architecture_text))]⟩

/-- The 2x2 feature grid of slide 4: features zipped with positions, each
box a heading paragraph plus one bulleted paragraph per item. -/
def feature_boxes : List Shape :=
  (features.zip positions).map fun fp =>
    Shape.textbox fp.2.1 fp.2.2 600 250
      (⟨"✅ " ++ fp.1.1, some 18, some GREEN, some true, none, none, none⟩ ::
        fp.1.2.map fun item => ⟨"• " ++ item, some 14, some WHITE, none, none, some 4, none⟩)

/-- Slide 4, Kiro features: background, title box, then the feature grid. -/
def slide4 : Slide :=
  ⟨6,
   Shape.rectangle 0 0 slide_width slide_height (Fill.solid BLUE) Fill.background ::
     Shape.textbox 50 50 1233 100
       [⟨"Kiro Features Leveraged (30% of Grade)", some 32, some GOLD, some true, none, none, none⟩] ::
     feature_boxes⟩

/-- The final slide, Thank You and Q and A: background, title box, the
takeaways box, and the questions prompt. -/
def final_slide : Slide :=
  ⟨6,
   [Shape.rectangle 0 0 slide_width slide_height (Fill.solid BLUE) Fill.background,
    Shape.textbox 100 150 1133 150
      [⟨"Thank You & Q&A", some 48, some WHITE, some true, some PPAlign.center, none, none⟩],
    Shape.textbox 200 350 933 200
      (⟨"Key Takeaways", some 24, some GREEN, some true, some PPAlign.center, none, none⟩ ::
        takeaways.map fun t => ⟨"• " ++ t, some 16, some WHITE, none, some PPAlign.center, some 6, none⟩),
    Shape.textbox 100 550 1133 100
      [⟨"Questions & Discussion", some 28, some GOLD, some true, some PPAlign.center, none, none⟩]]⟩

/-- The deck that create_presentation builds in memory: widescreen canvas
and the five slides, each added with prs.slide_layouts[6]. -/
def create_presentation_deck : Deck :=
  ⟨slide_width, slide_height, [slide1, slide2, slide3, slide4, final_slide]⟩

/-- The fixed relative path passed to prs.save. -/
def output_path : String := "Agentic_Workflow_Reviewer_Presentation.pptx"

/-- The three lines create_presentation prints after prs.save succeeds. -/
def success_messages : List String :=
  ["✅ PowerPoint presentation created: Agentic_Workflow_Reviewer_Presentation.pptx",
   "📊 Slides created: Title, Problem Statement, Architecture, Kiro Features, Thank You",
   "🎯 Ready for Kiro Hackathon presentation!"]

/-- The three lines printed by the except ImportError branch of main. -/
def install_hint_messages : List String :=
  ["❌ Error: python-pptx library not found",
   "📦 Install with: pip install python-pptx",
   "🔄 Then run: python create_powerpoint.py"]

/-- A Python exception as main distinguishes them: either an ImportError or
any other Exception, carrying its str() message. -/
structure PyException where
  isImportError : Bool
  message : String
deriving DecidableEq, Repr

/-- Observable outcome of one process run: either the interpreter exits
normally (everything raised was caught) or it crashes on an unhandled
exception and prints a traceback; both record what was printed by the
script and which files were written. -/
inductive RunResult where
  | exited (printed : List String) (filesWritten : List String)
  | crashed (printed : List String) (filesWritten : List String) (exn : PyException)
deriving DecidableEq, Repr

/-- main() of the script, with a fault oracle: fault = some e means the
exception e is raised inside create_presentation while the deck is being
constructed, before prs.save runs, so at that point nothing has been
printed or written; fault = none means construction completes, the single
file is saved and the success lines printed. The two except branches of
main are translated branch for branch: the ImportError branch prints the
installation hint, the generic branch prints the message of e. (Lean
reserves the name main for executables, hence the suffix.) -/
def main_run (fault : Option PyException) : RunResult :=
  match fault with
  | none => RunResult.exited success_messages [output_path]
  | some e =>
      if e.isImportError then RunResult.exited install_hint_messages []
      else RunResult.exited ["❌ Error creating presentation: " ++ e.message] []

/-- One whole run of the script as a process. The from-pptx imports on
lines 13-17 execute at module scope, before main is even defined; when
python-pptx is not importable the interpreter raises ModuleNotFoundError
(a subclass of ImportError) right there, outside every try block of the
script, and the process crashes with a traceback having printed nothing.
Only when the import succeeds does the __main__ guard call main. -/
def run_script (pptxImportOk : Bool) (fault : Option PyException) : RunResult :=
  if pptxImportOk then main_run fault
  else RunResult.crashed [] [] ⟨true, "No module named pptx"⟩

/-- The texts of the paragraphs of a shape, in order; a rectangle has
none. -/
def textbox_texts : Shape → List String
  | Shape.rectangle _ _ _ _ _ _ => []
  | Shape.textbox _ _ _ _ ps => ps.map fun p => p.text

/-- The first paragraph text appearing on a slide, scanning shapes in
insertion order. -/
def slide_primary_text (s : Slide) : Option String :=
  ((s.shapes.map textbox_texts).flatten).head?

/-- Whether a shape lies inside the canvas of the deck:
left + width within the canvas width and top + height within the canvas
height. -/
def shape_in_bounds (d : Deck) : Shape → Bool
  | Shape.rectangle l t w h _ _ =>
      decide (l + w ≤ d.slideWidth) && decide (t + h ≤ d.slideHeight)
  | Shape.textbox l t w h _ =>
      decide (l + w ≤ d.slideWidth) && decide (t + h ≤ d.slideHeight)

/-- Whether the first shape of a slide is a solid-filled, outline-free
rectangle at the origin covering the whole canvas of the deck. -/
def first_shape_is_full_canvas_background (d : Deck) (s : Slide) : Bool :=
  match s.shapes with
  | Shape.rectangle l t w h (Fill.solid _) Fill.background :: _ =>
      decide (l = 0) && decide (t = 0) &&
        decide (w = d.slideWidth) && decide (h = d.slideHeight)
  | _ => false

/-- Whether a slide was added with layout index 6 and starts with a
rectangle whose solid fill color is BLUE. -/
def slide_uses_blank_layout_and_blue_background (s : Slide) : Bool :=
  decide (s.layoutIndex = 6) &&
    match s.shapes with
    | Shape.rectangle _ _ _ _ (Fill.solid c) _ :: _ => decide (c = BLUE)
    | _ => false

/-- Shape count of each slide of a deck, in slide order. -/
def slide_shape_counts (d : Deck) : List Nat := d.slides.map fun s => s.shapes.length

/-- All paragraph texts of a deck, grouped per slide and per shape. -/
def deck_texts (d : Deck) : List (List (List String)) :=
  d.slides.map fun s => s.shapes.map textbox_texts

/-- The slide names listed in the second success line. -/
def slide_names : List String :=
  ["Title", "Problem Statement", "Architecture", "Kiro Features", "Thank You"]

/-- Whether pat occurs as a contiguous subsequence of a character list. -/
def char_seq_occurs (pat : List Char) : List Char → Bool
  | [] => pat.isEmpty
  | c :: cs => pat.isPrefixOf (c :: cs) || char_seq_occurs pat cs

/-- Whether pat occurs as a substring of s. -/
def string_contains (pat s : String) : Bool :=
  char_seq_occurs pat.toList s.toList

/-- Claim C1 is refuted by the code: whatever would happen later, a run
in which python-pptx cannot be imported crashes with an unhandled
ImportError raised at module scope, printing nothing — in particular no
installation hint — because the try block inside main is never reached. -/
theorem c1_missing_library_crashes :
    ∀ fault, run_script false fault =
      RunResult.crashed [] [] ⟨true, "No module named pptx"⟩ :=
  fun _ => rfl

/-- Claim C2: a successful run writes exactly one file, at the fixed
relative path Agentic_Workflow_Reviewer_Presentation.pptx, and the deck it
serializes has exactly five slides. -/
theorem c2_single_output_five_slides :
    run_script true none = RunResult.exited success_messages [output_path] ∧
      [output_path].length = 1 ∧
      output_path = "Agentic_Workflow_Reviewer_Presentation.pptx" ∧
      create_presentation_deck.slides.length = 5 :=
  ⟨rfl, rfl, rfl, rfl⟩

/-- Claim C3: on slide 2 the challenge box holds, after its heading,
exactly the four literal challenge strings and the solution box exactly
the four literal solution strings, each as one bullet-prefixed paragraph,
in the order of the literal lists. -/
theorem c3_problem_slide_bullets :
    create_presentation_deck.slides.get? 1 = some slide2 ∧
      slide2.shapes.map textbox_texts =
        [[],
         ["Problem Statement & Vision"],
         "The Challenge" :: challenges.map (fun c => "• " ++ c),
         "Why Agents + Kiro?" :: solutions.map (fun s => "• " ++ s)] ∧
      challenges =
        ["DevOps teams struggle with complex workflow optimization",
         "Manual review processes are time-consuming and error-prone",
         "Different optimization goals require different expertise",
         "No unified system for comprehensive workflow analysis"] ∧
      solutions =
        ["Decomposition: Complex analysis → specialized agents",
         "Expertise: Each agent focuses on domain knowledge",
         "Scalability: Parallel processing + intelligent caching",
         "Human-in-the-loop: Interactive goal changes"] :=
  ⟨rfl, rfl, rfl, rfl⟩

/-- Claim C4: on every slide of the deck, the first shape inserted is a
solid-filled, outline-free rectangle at the origin whose width and height
equal the canvas width and height of the deck. -/
theorem c4_first_shape_full_canvas_background :
    create_presentation_deck.slides.all
        (first_shape_is_full_canvas_background create_presentation_deck) = true :=
  rfl

/-- Claim C5: the primary text of the first slide is the literal title
string. -/
theorem c5_title_slide_primary_text :
    (create_presentation_deck.slides.get? 0).map slide_primary_text =
      some (some "Agentic Workflow Reviewer") :=
  rfl

/-- Claim C6: an exception that is not an ImportError, raised during deck
construction, is caught by the generic except branch of main, its message
is printed, and no file is written (the run still exits normally). -/
theorem c6_generic_exception_handled (e : PyException)
    (h : e.isImportError = false) :
    run_script true (some e) =
      RunResult.exited ["❌ Error creating presentation: " ++ e.message] [] := by
  simp [run_script, main_run, h]

/-- Witness for C6 at the concrete exception with message boom. -/
theorem c6_generic_exception_handled_witness :
    run_script true (some ⟨false, "boom"⟩) =
      RunResult.exited ["❌ Error creating presentation: " ++ "boom"] [] :=
  c6_generic_exception_handled ⟨false, "boom"⟩ rfl

/-- Claim C7: every shape of every slide of the deck lies within the
canvas bounds: left + width at most the canvas width and top + height at
most the canvas height. -/
theorem c7_shapes_within_canvas :
    create_presentation_deck.slides.all
        (fun s => s.shapes.all (shape_in_bounds create_presentation_deck)) = true :=
  rfl

/-- Claim C8: generation is deterministic — any two runs build decks with
identical per-slide shape counts and identical paragraph texts. -/
theorem c8_deterministic (d1 d2 : Deck)
    (h1 : d1 = create_presentation_deck) (h2 : d2 = create_presentation_deck) :
    slide_shape_counts d1 = slide_shape_counts d2 ∧ deck_texts d1 = deck_texts d2 := by
  subst h1
  subst h2
  exact ⟨rfl, rfl⟩

/-- Witness for C8 at two (identical) concrete runs. -/
theorem c8_deterministic_witness :
    slide_shape_counts create_presentation_deck = slide_shape_counts create_presentation_deck ∧
      deck_texts create_presentation_deck = deck_texts create_presentation_deck :=
  c8_deterministic create_presentation_deck create_presentation_deck rfl rfl

/-- Claim C9 as stated is refuted: the three lines printed on a
successful run never contain the decimal slide count 5 (no printed line
contains the digit 5 or the word five); the program lists slide names
instead of printing the count. -/
theorem c9_slide_count_not_printed :
    run_script true none = RunResult.exited success_messages [output_path] ∧
      toString create_presentation_deck.slides.length = "5" ∧
      success_messages.all (fun m => !(string_contains "5" m)) = true ∧
      success_messages.all (fun m => !(string_contains "five" m)) = true ∧
      success_messages.all (fun m => !(string_contains "Five" m)) = true := by
  exact ⟨rfl, by decide, by decide, by decide, by decide⟩

/-- Claim C9 amended: on every successful run the program prints a
success message naming the output file and a line listing the names of
the five produced slides (as many names as there are slides), but not the
numeric slide count. -/
theorem c9_success_prints_message_and_slide_names :
    run_script true none = RunResult.exited success_messages [output_path] ∧
      success_messages.get? 0 =
        some ("✅ PowerPoint presentation created: " ++ output_path) ∧
      success_messages.get? 1 =
        some ("📊 Slides created: " ++ String.intercalate ", " slide_names) ∧
      slide_names.length = create_presentation_deck.slides.length := by
  exact ⟨rfl, by decide, by decide, rfl⟩

/-- Claim C10: every slide of the deck is added with layout index 6 (the
blank layout) and starts with a background rectangle solid-filled with
BLUE, which is RGB 102 126 234. -/
theorem c10_uniform_layout_and_background :
    create_presentation_deck.slides.all slide_uses_blank_layout_and_blue_background = true ∧
      BLUE = ⟨102, 126, 234⟩ :=
  ⟨rfl, rfl⟩
